import Mathlib

/-!
Verification of the mapping-prototype reactive store, selector engine and
layer-rebuild pipeline.

Shallow embedding conventions:
* JS values are modelled by `Value` (rationals stand in for JS numbers; the
  claims never exercise NaN/Infinity or float rounding).
* Dotted state keys (`'cluster.radius'`) are modelled pre-split, as
  `List String` (JS `key.split('.')` never yields an empty list, so the
  theorems carry nonemptiness where it matters).
* JS strict equality `===` is modelled by `primEq`: value equality on
  primitives; two object expressions are never `===` (every object literal or
  spread in the modelled flows produces a fresh reference).
* A JS exception is modelled by `Option` (`none` = the call threw).
-/

namespace MappingProto

/-- JS values: null, undefined, booleans, numbers, strings, arrays, objects.
Object fields keep insertion order, as JS objects do. -/
inductive Value where
  | vNull : Value
  | vUndef : Value
  | vBool : Bool → Value
  | vNum : Rat → Value
  | vStr : String → Value
  | vArr : List Value → Value
  | vObj : List (String × Value) → Value
  deriving Repr

open Value

/-- JS `===` restricted to the modelled flows: primitives compare by value,
any comparison involving an object or array is `false` (fresh references). -/
def primEq : Value → Value → Bool
  | vNull, vNull => true
  | vUndef, vUndef => true
  | vBool a, vBool b => a == b
  | vNum a, vNum b => a == b
  | vStr a, vStr b => a == b
  | _, _ => false

theorem primEq_eq {a b : Value} (h : primEq a b = true) : a = b := by
  cases a <;> cases b <;> simp_all [primEq]

theorem primEq_refl_prim : ∀ {a : Value}, (∀ l, a ≠ vArr l) → (∀ f, a ≠ vObj f) →
    primEq a a = true := by
  intro a h1 h2
  cases a <;> simp_all [primEq]

/-- Dotted state key, pre-split on `'.'`. -/
abbrev Path := List String

/-- Field lookup in a JS object: first matching key, `undefined` if absent. -/
def objGet (fields : List (String × Value)) (k : String) : Value :=
  match fields with
  | [] => vUndef
  | (k', v) :: rest => if k' == k then v else objGet rest k

/-- Field write in a JS object: replaces the first matching key in place,
appends at the end when the key is new (JS insertion-order semantics). -/
def objSet (fields : List (String × Value)) (k : String) (v : Value) :
    List (String × Value) :=
  match fields with
  | [] => [(k, v)]
  | (k', v') :: rest => if k' == k then (k, v) :: rest else (k', v') :: objSet rest k v

/-- Whether an object has a field. -/
def objHas (fields : List (String × Value)) (k : String) : Bool :=
  match fields with
  | [] => false
  | (k', _) :: rest => k' == k || objHas rest k

/-- The `getState(key)` traversal (src/unnamed/part_004, `getState`): walk the
parts; a null/undefined intermediate yields `undefined`; property reads on
other primitives are modelled as `undefined`. -/
def getValue : Value → Path → Value
  | v, [] => v
  | vObj fields, p :: ps => getValue (objGet fields p) ps
  | _, _ :: _ => vUndef

/-- The `setState(key, value)` traversal (src/unnamed/part_004, `setState`):
creates `{}` for `undefined` intermediates, throws (`none`) when the walk
hits a non-object (null or primitive), and at the final key writes only when
the new value is not `===` the old one. Returns the new state and whether a
notification fired. -/
def setWalk : Value → Path → Value → Option (Value × Bool)
  | vObj fields, [k], v =>
      let oldValue := objGet fields k
      if primEq oldValue v then some (vObj fields, false)
      else some (vObj (objSet fields k v), true)
  | vObj fields, k :: p :: ps, v =>
      let child :=
        match objGet fields k with
        | vUndef => vObj []
        | c => c
      match setWalk child (p :: ps) v with
      | some (child', changed) => some (vObj (objSet fields k child'), changed)
      | none => none
  | _, _, _ => none

/-- Paths on which `setState` is guaranteed not to throw: the walk stays in
objects, or hits `undefined` (from where `setState` creates fresh `{}`
intermediates all the way down). -/
def pathWritable : Value → Path → Bool
  | vObj _, [_] => true
  | vObj fields, k :: p :: ps =>
      (match objGet fields k with
       | vUndef => true
       | c => pathWritable c (p :: ps))
  | _, _ => false

/-- Paths every segment of which is already present, with object
intermediates (no creation, no throw). -/
def pathPresent : Value → Path → Bool
  | vObj fields, [k] => objHas fields k
  | vObj fields, k :: p :: ps => objHas fields k && pathPresent (objGet fields k) (p :: ps)
  | _, _ => false

/-- Unconditional functional update along a present path. -/
def writeValue : Value → Path → Value → Value
  | vObj fields, [k], v => vObj (objSet fields k v)
  | vObj fields, k :: p :: ps, v => vObj (objSet fields k (writeValue (objGet fields k) (p :: ps) v))
  | s, _, _ => s

theorem objGet_objSet_self (fields : List (String × Value)) (k : String) (v : Value) :
    objGet (objSet fields k v) k = v := by
  induction fields with
  | nil => simp [objGet, objSet]
  | cons f rest ih =>
      by_cases h : f.1 == k
      · simp [objGet, objSet, h]
      · simp [objGet, objSet, h, ih]

theorem objGet_objSet_ne (fields : List (String × Value)) (k k' : String) (v : Value)
    (h : (k == k') = false) : objGet (objSet fields k v) k' = objGet fields k' := by
  induction fields with
  | nil => simp [objGet, objSet, h]
  | cons f rest ih =>
      by_cases h2 : f.1 == k
      · have h3 : (f.1 == k') = false := by
          have := eq_of_beq h2
          subst this
          exact h
        simp [objGet, objSet, h2, h3, h]
      · by_cases h4 : f.1 == k'
        · simp [objGet, objSet, h2, h4]
        · simp [objGet, objSet, h2, h4, ih]

theorem objSet_self_of_get (fields : List (String × Value)) (k : String)
    (hk : objHas fields k = true) : objSet fields k (objGet fields k) = fields := by
  induction fields with
  | nil => simp [objHas] at hk
  | cons f rest ih =>
      obtain ⟨k', v'⟩ := f
      by_cases h : k' == k
      · have := eq_of_beq h
        subst this
        simp [objGet, objSet]
      · simp [objHas, h] at hk
        simp [objGet, objSet, h, ih hk]

/-- On a fully-present path, `setState` never throws and its result is the
functional update; the notification flag records whether the new value
differed from the old. -/
theorem setWalk_present (s : Value) (p : Path) (v : Value)
    (hp : pathPresent s p = true) :
    setWalk s p v = some (writeValue s p v, !(primEq (getValue s p) v)) := by
  induction p generalizing s with
  | nil => cases s <;> simp [pathPresent] at hp
  | cons k ps ih =>
      cases s with
      | vObj fields =>
          cases ps with
          | nil =>
              by_cases h : primEq (objGet fields k) v
              · have hself := objSet_self_of_get fields k (by simpa [pathPresent] using hp)
                rw [primEq_eq h] at hself
                simp [setWalk, writeValue, getValue, h, hself]
              · simp [setWalk, writeValue, getValue, h]
          | cons q qs =>
              simp [pathPresent] at hp
              have hchild := ih (objGet fields k) hp.2
              have hobj : ∃ cf, objGet fields k = vObj cf := by
                cases hc : objGet fields k <;> simp [hc, pathPresent] at hp ⊢
              obtain ⟨cf, hcf⟩ := hobj
              simp [setWalk, hcf, hcf ▸ hchild, writeValue, getValue]
      | vNull => simp [pathPresent] at hp
      | vUndef => simp [pathPresent] at hp
      | vBool b => simp [pathPresent] at hp
      | vNum n => simp [pathPresent] at hp
      | vStr st => simp [pathPresent] at hp
      | vArr l => simp [pathPresent] at hp

theorem pathWritable_emptyObj : ∀ (p : Path), p ≠ [] → pathWritable (vObj []) p = true
  | [], h => absurd rfl h
  | [_], _ => rfl
  | _ :: _ :: _, _ => by simp [pathWritable, objGet]

/-- On a writable path, `setState` succeeds and a subsequent `getState` at the
same path reads back the written value. -/
theorem setWalk_writable (s : Value) (p : Path) (v : Value)
    (hw : pathWritable s p = true) :
    ∃ s' ch, setWalk s p v = some (s', ch) ∧ getValue s' p = v := by
  induction p generalizing s with
  | nil => cases s <;> simp [pathWritable] at hw
  | cons k ps ih =>
      cases s with
      | vObj fields =>
          cases ps with
          | nil =>
              by_cases h : primEq (objGet fields k) v
              · exact ⟨vObj fields, false, by simp [setWalk, h],
                  by simpa [getValue] using primEq_eq h⟩
              · exact ⟨vObj (objSet fields k v), true, by simp [setWalk, h],
                  by simp [getValue, objGet_objSet_self]⟩
          | cons q qs =>
              simp only [pathWritable] at hw
              cases hc : objGet fields k with
              | vUndef =>
                  obtain ⟨c', ch, hwalk, hget⟩ :=
                    ih (vObj []) (pathWritable_emptyObj (q :: qs) (by simp))
                  exact ⟨vObj (objSet fields k c'), ch,
                    by simp [setWalk, hc, hwalk],
                    by simp [getValue, objGet_objSet_self, hget]⟩
              | vObj cf =>
                  rw [hc] at hw
                  obtain ⟨c', ch, hwalk, hget⟩ := ih (vObj cf) hw
                  exact ⟨vObj (objSet fields k c'), ch,
                    by simp [setWalk, hc, hwalk],
                    by simp [getValue, objGet_objSet_self, hget]⟩
              | vNull => rw [hc] at hw; simp [pathWritable] at hw
              | vBool b => rw [hc] at hw; simp [pathWritable] at hw
              | vNum n => rw [hc] at hw; simp [pathWritable] at hw
              | vStr st => rw [hc] at hw; simp [pathWritable] at hw
              | vArr l => rw [hc] at hw; simp [pathWritable] at hw
      | vNull => simp [pathWritable] at hw
      | vUndef => simp [pathWritable] at hw
      | vBool b => simp [pathWritable] at hw
      | vNum n => simp [pathWritable] at hw
      | vStr st => simp [pathWritable] at hw
      | vArr l => simp [pathWritable] at hw

/-- A successful `setState` on a key rooted at a different top segment leaves
single-segment reads elsewhere unchanged. -/
theorem setWalk_frame_head (s : Value) (k : String) (rest : Path) (v : Value)
    (s' : Value) (ch : Bool) (q : String) (hne : (k == q) = false)
    (h : setWalk s (k :: rest) v = some (s', ch)) :
    getValue s' [q] = getValue s [q] := by
  cases s with
  | vObj fields =>
      cases rest with
      | nil =>
          by_cases hp : primEq (objGet fields k) v
          · simp [setWalk, hp] at h
            simp [← h.1]
          · simp [setWalk, hp] at h
            simp [← h.1, getValue, objGet_objSet_ne fields k q v hne]
      | cons r rs =>
          simp only [setWalk] at h
          cases hwalk : setWalk (match objGet fields k with
              | vUndef => vObj []
              | c => c) (r :: rs) v with
          | none => rw [hwalk] at h; simp at h
          | some res =>
              rw [hwalk] at h
              simp at h
              simp [← h.1, getValue, objGet_objSet_ne fields k q _ hne]
  | vNull => simp [setWalk] at h
  | vUndef => simp [setWalk] at h
  | vBool b => simp [setWalk] at h
  | vNum n => simp [setWalk] at h
  | vStr st => simp [setWalk] at h
  | vArr l => simp [setWalk] at h

-- ===========================================================================
-- Store with subscriptions, notification batching (src/unnamed/part_004)
-- ===========================================================================

/-- JS `Map.set`: updating an existing key keeps its position, a new key is
appended (insertion order preserved) — used for `pendingNotifications`. -/
def mapSet (m : List (Path × Value)) (k : Path) (v : Value) : List (Path × Value) :=
  match m with
  | [] => [(k, v)]
  | (k', v') :: rest => if k' == k then (k, v) :: rest else (k', v') :: mapSet rest k v

/-- Store state: the state tree plus the notification machinery
(`batchMode`, `pendingNotifications`) and the trace of `fireNotification`
calls actually issued to subscribers. -/
structure StoreM where
  st : Value
  batchMode : Bool
  pending : List (Path × Value)
  fired : List (Path × Value)

/-- Function `notify(key, value)`: queue while in batch mode, fire immediately
otherwise. -/
def notifyM (σ : StoreM) (k : Path) (v : Value) : StoreM :=
  if σ.batchMode then { σ with pending := mapSet σ.pending k v }
  else { σ with fired := σ.fired ++ [(k, v)] }

/-- The flush loop at the end of `batch`: fire every pending notification in
insertion order, then clear. -/
def flushPending (σ : StoreM) : StoreM :=
  { σ with fired := σ.fired ++ σ.pending, pending := [] }

/-- Body of a function passed to `batch`: a sequence of `setState` calls,
possibly containing nested `batch` calls (as `setMultiple` would make). -/
inductive StoreOp where
  | set : Path → Value → StoreOp
  | batchCall : List StoreOp → StoreOp

mutual

/-- Run store operations; the `Bool` reports an escaping exception (a throwing
`setState` aborts the remaining operations). -/
def runOps : StoreM → List StoreOp → StoreM × Bool
  | σ, [] => (σ, false)
  | σ, StoreOp.set k v :: rest =>
      (match setWalk σ.st k v with
       | none => (σ, true)
       | some (st', changed) =>
           let σ1 : StoreM := { σ with st := st' }
           runOps (if changed then notifyM σ1 k v else σ1) rest)
  | σ, StoreOp.batchCall ops :: rest =>
      let r := batchIn σ ops
      if r.2 then (r.1, true) else runOps r.1 rest

/-- Function `batch(updateFn)`: set batch mode, clear pending, run, and in the
`finally` block drop batch mode and flush — even when `updateFn` threw. -/
def batchIn (σ : StoreM) (ops : List StoreOp) : StoreM × Bool :=
  let σ1 : StoreM := { σ with batchMode := true, pending := [] }
  let r := runOps σ1 ops
  (flushPending { r.1 with batchMode := false }, r.2)

end

/-- A top-level `batch(fn)` call where `fn` runs `ops` and then possibly
throws on its own. -/
def batchTop (σ : StoreM) (ops : List StoreOp) (fnThrows : Bool) : StoreM × Bool :=
  let r := batchIn σ ops
  (r.1, r.2 || fnThrows)

/-- The sequence of `notify` calls a list of plain `setState` calls makes
(claim side): one per set that actually changes the value, stopping at a
throwing set. -/
def notifyTrace : Value → List (Path × Value) → List (Path × Value)
  | _, [] => []
  | s, (k, v) :: rest =>
      match setWalk s k v with
      | none => []
      | some (s', changed) =>
          if changed then (k, v) :: notifyTrace s' rest else notifyTrace s' rest

/-- Last value notified for key `k`, starting from `v`. -/
def lastValueFor (k : Path) (v : Value) : List (Path × Value) → Value
  | [] => v
  | (k', v') :: rest => if k' == k then lastValueFor k v' rest else lastValueFor k v rest

/-- The claim's flush semantics, stated directly: distinct paths in
first-touched order, each exactly once, carrying the last value notified for
that path. -/
def expectedFlush : List (Path × Value) → List (Path × Value)
  | [] => []
  | (k, v) :: rest =>
      (k, lastValueFor k v rest) ::
        expectedFlush (rest.filter (fun kv => !(kv.1 == k)))
termination_by tr => tr.length
decreasing_by
  simp only [List.length_cons]
  exact Nat.lt_succ_of_le (List.length_filter_le _ _)

theorem foldl_mapSet_cons (acc0 : List (Path × Value)) (k : Path) (v : Value)
    (tr : List (Path × Value)) :
    tr.foldl (fun acc kv => mapSet acc kv.1 kv.2) ((k, v) :: acc0) =
      (k, lastValueFor k v tr) ::
        (tr.filter (fun kv => !(kv.1 == k))).foldl
          (fun acc kv => mapSet acc kv.1 kv.2) acc0 := by
  induction tr generalizing v acc0 with
  | nil => simp [lastValueFor]
  | cons kv rest ih =>
      obtain ⟨k', v'⟩ := kv
      by_cases h : k' == k
      · have hk := eq_of_beq h
        subst hk
        simp [mapSet, lastValueFor, h, ih]
      · have h2 : ¬ k = k' := fun he => h (beq_iff_eq.mpr he.symm)
        simp [mapSet, lastValueFor, h, h2, ih]

/-- The pending-notification map a batch accumulates equals the claim's
first-touched/last-value flush list. -/
theorem foldl_mapSet_expected : ∀ tr : List (Path × Value),
    tr.foldl (fun acc kv => mapSet acc kv.1 kv.2) [] = expectedFlush tr
  | [] => by simp [expectedFlush]
  | (k, v) :: rest => by
      rw [expectedFlush]
      have h := foldl_mapSet_cons [] k v rest
      have hrec := foldl_mapSet_expected (rest.filter (fun kv => !(kv.1 == k)))
      simp only [List.foldl_cons, mapSet]
      rw [h, hrec]
termination_by tr => tr.length
decreasing_by
  simp only [List.length_cons]
  exact Nat.lt_succ_of_le (List.length_filter_le _ _)

/-- Inside batch mode, a run of plain `setState` calls leaves `fired`
untouched and accumulates exactly the notify trace into `pending`. -/
theorem runOps_flat (st : Value) (pnd f : List (Path × Value))
    (sets : List (Path × Value)) :
    ∃ st2 threw,
      runOps ⟨st, true, pnd, f⟩ (sets.map (fun kv => StoreOp.set kv.1 kv.2)) =
        (⟨st2, true,
          (notifyTrace st sets).foldl (fun acc kv => mapSet acc kv.1 kv.2) pnd,
          f⟩, threw) := by
  induction sets generalizing st pnd with
  | nil => exact ⟨st, false, by simp [runOps, notifyTrace]⟩
  | cons kv rest ih =>
      obtain ⟨k, v⟩ := kv
      cases hw : setWalk st k v with
      | none =>
          refine ⟨st, true, ?_⟩
          simp [runOps, hw, notifyTrace]
      | some res =>
          obtain ⟨st', changed⟩ := res
          cases changed with
          | true =>
              obtain ⟨st2, threw, hrun⟩ := ih st' (mapSet pnd k v)
              refine ⟨st2, threw, ?_⟩
              simp [runOps, hw, notifyM, notifyTrace, hrun]
          | false =>
              obtain ⟨st2, threw, hrun⟩ := ih st' pnd
              refine ⟨st2, threw, ?_⟩
              simp [runOps, hw, notifyTrace, hrun]

-- ===========================================================================
-- Validation (src/unnamed/part_004, `validators` / `validateState`)
-- ===========================================================================

/-- The list `Object.values(MODES)` from src/src/config/constants.js. -/
def MODES_VALUES : List String := ["clusters", "heatmap", "markers"]

/-- The `'mode'` validator: `Object.values(MODES).includes(value)`. -/
def isMode (v : Value) : Bool :=
  match v with
  | vStr s => MODES_VALUES.contains s
  | _ => false

/-- Check `typeof value === 'number' && value >= lo && value <= hi`. -/
def isNumBetween (lo hi : Rat) (v : Value) : Bool :=
  match v with
  | vNum n => lo ≤ n && n ≤ hi
  | _ => false

def isHexDigitChar (c : Char) : Bool :=
  ('0' ≤ c && c ≤ '9') || ('a' ≤ c && c ≤ 'f') || ('A' ≤ c && c ≤ 'F')

/-- The strict `#` + six hex digits color pattern. -/
def isHexColor (v : Value) : Bool :=
  match v with
  | vStr s =>
      match s.toList with
      | '#' :: rest => rest.length == 6 && rest.all isHexDigitChar
      | _ => false
  | _ => false

def isStringValue (v : Value) : Bool :=
  match v with
  | vStr _ => true
  | _ => false

def isBoolValue (v : Value) : Bool :=
  match v with
  | vBool _ => true
  | _ => false

/-- Function `validateState(key, value)`: the path-keyed validator table; keys without
a registered validator always pass. Returns the `valid` flag (the error
message is not modelled). -/
def validateState (key : Path) (v : Value) : Bool :=
  if key = ["mode"] then isMode v
  else if key = ["filters", "volume"] then
    (match v with
     | vStr s => ["all", "small", "medium", "large"].contains s
     | _ => false)
  else if key = ["filters", "category"] then isStringValue v
  else if key = ["cluster", "radius"] then isNumBetween 10 200 v
  else if key = ["cluster", "maxZoom"] then isNumBetween 0 22 v
  else if key = ["cluster", "opacity"] then isNumBetween 0 1 v
  else if key = ["heatmap", "intensity"] then isNumBetween (mkRat 1 10) 5 v
  else if key = ["heatmap", "radius"] then isNumBetween 5 100 v
  else if key = ["heatmap", "opacity"] then isNumBetween 0 1 v
  else if key = ["markers", "baseSize"] then isNumBetween (mkRat 1 10) 3 v
  else if key = ["markers", "scaleByVolume"] then isBoolValue v
  else if key = ["colors", "primary"] then isHexColor v
  else if key = ["colors", "secondary"] then isHexColor v
  else true

/-- Keys without a registered validator always pass (permissive default). -/
theorem validateState_sizeMetric (v : Value) :
    validateState ["cluster", "sizeMetric"] v = true := by simp [validateState]

theorem validateState_colorMetric (v : Value) :
    validateState ["cluster", "colorMetric"] v = true := by simp [validateState]

theorem validateState_heatmapMetric (v : Value) :
    validateState ["heatmap", "metric"] v = true := by simp [validateState]

theorem validateState_markersIcon (v : Value) :
    validateState ["markers", "icon"] v = true := by simp [validateState]

/-- Function `setStateValidated(key, value)`: validate, then set; returns the boolean
outcome, `none` when the underlying `setState` throws. -/
def setStateValidated (σ : Value) (key : Path) (v : Value) : Option (Value × Bool) :=
  if validateState key v then
    match setWalk σ key v with
    | none => none
    | some (σ', _) => some (σ', true)
  else some (σ, false)

/-- The initial `state` object literal of src/unnamed/part_004. -/
def defaultState : Value :=
  vObj [("map", vNull), ("popup", vNull), ("mode", vStr "clusters"),
        ("autoSwitchedToCluster", vBool false), ("rawData", vArr []),
        ("geoJSON", vNull),
        ("filters", vObj [("volume", vStr "all"), ("category", vStr "all")]),
        ("cluster", vObj [("sizeMetric", vStr "count"), ("colorMetric", vStr "weight"),
                          ("radius", vNum 50), ("maxZoom", vNum 14), ("opacity", vNum (mkRat 8 10))]),
        ("heatmap", vObj [("metric", vStr "count"), ("intensity", vNum 1),
                          ("radius", vNum 20), ("opacity", vNum (mkRat 8 10))]),
        ("markers", vObj [("icon", vStr "recycling-bin"), ("baseSize", vNum (mkRat 8 10)),
                          ("scaleByVolume", vBool true)]),
        ("colors", vObj [("primary", vStr "#3b82f6"), ("secondary", vStr "#ef4444")])]

-- ===========================================================================
-- C1: batching
-- ===========================================================================

/-- C1 (amended): for every `fn` passed to `batch(fn)` that performs plain
`setState` calls (no nested `batch`/`setMultiple`), all distinct-path
notifications accumulated during the call fire exactly once each, in
first-touched order with the last notified value (`expectedFlush`), after
`fn` returns — including when `fn` throws, either on its own
(`fnThrows = true`) or because a `setState` threw mid-way. -/
theorem batch_flat_flushes_once_each (σ : StoreM) (sets : List (Path × Value))
    (fnThrows : Bool) :
    ∃ st2 threw,
      batchTop σ (sets.map (fun kv => StoreOp.set kv.1 kv.2)) fnThrows =
        (⟨st2, false, [], σ.fired ++ expectedFlush (notifyTrace σ.st sets)⟩, threw) := by
  obtain ⟨st2, threw, h⟩ := runOps_flat σ.st [] σ.fired sets
  refine ⟨st2, threw || fnThrows, ?_⟩
  have hσ : ({ σ with batchMode := true, pending := [] } : StoreM) =
      ⟨σ.st, true, [], σ.fired⟩ := rfl
  simp [batchTop, batchIn, hσ, h, flushPending, foldl_mapSet_expected]

/-- C1 counterexample: a batched `fn` that itself calls `batch` (as the
documented `setMultiple` sugar does) violates the claim — the inner batch
clears the outer pending map, so the notification for path `a` is lost, and
`b`/`c` fire before `fn` returns. Here the notifications accumulated during
the call touch paths `a`, `b`, `c` (second conjunct), yet only `b` and `c`
ever fire and `a` fires zero times, not exactly once. -/
theorem batch_nested_loses_notifications :
    ((batchTop ⟨vObj [], false, [], []⟩
        [StoreOp.set ["a"] (vNum 1),
         StoreOp.batchCall [StoreOp.set ["b"] (vNum 2)],
         StoreOp.set ["c"] (vNum 3)] false).1.fired.map Prod.fst
      = [["b"], ["c"]])
    ∧ ((notifyTrace (vObj []) [(["a"], vNum 1), (["b"], vNum 2), (["c"], vNum 3)]).map
        Prod.fst = [["a"], ["b"], ["c"]]) := by
  constructor
  · simp [batchTop, batchIn, runOps, setWalk, objGet, objSet, primEq, notifyM,
      flushPending, mapSet]
  · simp [notifyTrace, setWalk, objGet, objSet, primEq]

-- ===========================================================================
-- C2: setStateValidated contract
-- ===========================================================================

/-- C2 (amended): on a writable path (all intermediate segments resolve to
objects or are absent), if validation passes then `setStateValidated`
returns `true` and `getState` reads back the written value; if validation
fails it returns `false` without throwing and leaves the state untouched.
(The claim's quantification over every path fails: see the counterexample
with a `null` intermediate.) -/
theorem setStateValidated_contract (σ : Value) (p : Path) (v : Value) :
    (validateState p v = false → setStateValidated σ p v = some (σ, false)) ∧
    (validateState p v = true → pathWritable σ p = true →
      ∃ σ', setStateValidated σ p v = some (σ', true) ∧ getValue σ' p = v) := by
  constructor
  · intro h
    simp [setStateValidated, h]
  · intro hv hw
    obtain ⟨σ', ch, hwalk, hget⟩ := setWalk_writable σ p v hw
    exact ⟨σ', by simp [setStateValidated, hv, hwalk], hget⟩

theorem setStateValidated_contract_witness :
    (∃ σ', setStateValidated defaultState ["cluster", "radius"] (vNum 60) =
        some (σ', true) ∧ getValue σ' ["cluster", "radius"] = vNum 60) ∧
    setStateValidated defaultState ["cluster", "radius"] (vNum 999) =
      some (defaultState, false) :=
  ⟨(setStateValidated_contract defaultState ["cluster", "radius"] (vNum 60)).2
      (by decide) (by decide),
   (setStateValidated_contract defaultState ["cluster", "radius"] (vNum 999)).1
      (by decide)⟩

/-- C2 counterexample: `state.map` is `null` in the default state and
`'map.x'` has no registered validator, so `validateState` passes; but
`setState('map.x', 1)` walks into the `null` intermediate and throws a
`TypeError` instead of returning `true`. -/
theorem setStateValidated_throws_on_null_parent :
    validateState ["map", "x"] (vNum 1) = true ∧
    (setStateValidated defaultState ["map", "x"] (vNum 1)).isNone = true := by
  decide

-- ===========================================================================
-- Persistence (src/unnamed/part_004: persistState / restoreState /
-- clearPersistedState). The localStorage entry is modelled structurally as
-- `Option Value`; `JSON.stringify`/`JSON.parse` round-trip is the identity on
-- the JSON-representable values the theorems quantify over.
-- ===========================================================================

/-- The `persistedKeys` list. -/
def persistedKeys : List String := ["mode", "filters", "cluster", "heatmap", "markers", "colors"]

/-- Function `persistState()`: collect `getState(key)` for each persisted key into the
stored snapshot object. -/
def persistState (σ : Value) : Value :=
  vObj (persistedKeys.map (fun k => (k, getValue σ [k])))

/-- Function `clearPersistedState()`: `localStorage.removeItem` — whatever was stored,
nothing remains. -/
def clearPersistedState (_stored : Option Value) : Option Value := none

/-- The `Object.entries` of an array (index keys) — relevant because
`typeof [] === 'object'`. -/
def indexedEntries (l : List Value) : List (String × Value) :=
  l.enum.map (fun p => (toString p.1, p.2))

/-- The inner merge loop of `restoreState` for one object-valued entry:
validate `key.subKey` and set on success, skip the leaf on failure. The
`Bool` reports a thrown `setState` (which aborts the rest). -/
def restoreSub (k : String) : Value → List (String × Value) → Value × Bool
  | σ, [] => (σ, false)
  | σ, (sk, sv) :: rest =>
      if validateState [k, sk] sv then
        match setWalk σ [k, sk] sv with
        | none => (σ, true)
        | some (σ', _) => restoreSub k σ' rest
      else restoreSub k σ rest

/-- The entry loop of `restoreState`: object (and array) values are merged
subkey-by-subkey, other values are validated and set wholesale. -/
def restoreEntries : Value → List (String × Value) → Value × Bool
  | σ, [] => (σ, false)
  | σ, (k, vObj fields) :: rest =>
      let r := restoreSub k σ fields
      if r.2 then (r.1, true) else restoreEntries r.1 rest
  | σ, (k, vArr l) :: rest =>
      let r := restoreSub k σ (indexedEntries l)
      if r.2 then (r.1, true) else restoreEntries r.1 rest
  | σ, (k, v) :: rest =>
      if validateState [k] v then
        match setWalk σ [k] v with
        | none => (σ, true)
        | some (σ', _) => restoreEntries σ' rest
      else restoreEntries σ rest

/-- Function `restoreState()`: `false` when nothing is stored or an exception was
caught (with any mutations made before the throw kept — the batch is not
rolled back), `true` otherwise. Notifications are not modelled here; they do
not affect the stored state. -/
def restoreState (σ : Value) (storage : Option Value) : Value × Bool :=
  match storage with
  | none => (σ, false)
  | some (vObj entries) =>
      let r := restoreEntries σ entries
      if r.2 then (r.1, false) else (r.1, true)
  | some (vArr l) =>
      let r := restoreEntries σ (indexedEntries l)
      if r.2 then (r.1, false) else (r.1, true)
  | some (vStr s) =>
      let r := restoreEntries σ
        ((s.toList.enum).map (fun p => (toString p.1, vStr (String.mk [p.2]))))
      if r.2 then (r.1, false) else (r.1, true)
  | some vNull => (σ, false)
  | some vUndef => (σ, false)
  | some _ => (σ, true)

/-- A state with the default shape and arbitrary persisted leaf values
(exactly the shape every state reachable through the store's setters has). -/
def mkStoreState (mo vv cv sm cm ra mz op me it hr ho ic bs sv cp c2 : Value) : Value :=
  vObj [("map", vNull), ("popup", vNull), ("mode", mo),
        ("autoSwitchedToCluster", vBool false), ("rawData", vArr []),
        ("geoJSON", vNull),
        ("filters", vObj [("volume", vv), ("category", cv)]),
        ("cluster", vObj [("sizeMetric", sm), ("colorMetric", cm),
                          ("radius", ra), ("maxZoom", mz), ("opacity", op)]),
        ("heatmap", vObj [("metric", me), ("intensity", it),
                          ("radius", hr), ("opacity", ho)]),
        ("markers", vObj [("icon", ic), ("baseSize", bs), ("scaleByVolume", sv)]),
        ("colors", vObj [("primary", cp), ("secondary", c2)])]

/-- JSON-representable primitive (what `JSON.stringify`/`parse` round-trips
exactly in the modelled value domain). -/
def jsonPrim : Value → Bool
  | vObj _ => false
  | vArr _ => false
  | vUndef => false
  | _ => true

-- ===========================================================================
-- C8: persistence round-trip
-- ===========================================================================

/-- C8: `persistState` then `clearPersistedState` then `restoreState` returns
`false` and leaves the state untouched; `persistState` from a store with the
default shape and valid persisted leaves, then `restoreState` onto a fresh
default store, returns `true` and reproduces the prior mode, filters,
per-mode settings and colors exactly. The validator hypotheses are the
store's own §4.1 table (restore skips invalid leaves); the `jsonPrim`
hypotheses keep the four validator-less leaves inside the JSON-representable
range the structural storage model assumes. -/
theorem persist_restore_roundtrip (σ s : Value)
    (mo vv cv sm cm ra mz op me it hr ho ic bs sv cp c2 : Value)
    (h1 : validateState ["mode"] mo = true)
    (h2 : validateState ["filters", "volume"] vv = true)
    (h3 : validateState ["filters", "category"] cv = true)
    (h4 : validateState ["cluster", "radius"] ra = true)
    (h5 : validateState ["cluster", "maxZoom"] mz = true)
    (h6 : validateState ["cluster", "opacity"] op = true)
    (h7 : validateState ["heatmap", "intensity"] it = true)
    (h8 : validateState ["heatmap", "radius"] hr = true)
    (h9 : validateState ["heatmap", "opacity"] ho = true)
    (h10 : validateState ["markers", "baseSize"] bs = true)
    (h11 : validateState ["markers", "scaleByVolume"] sv = true)
    (h12 : validateState ["colors", "primary"] cp = true)
    (h13 : validateState ["colors", "secondary"] c2 = true)
    (h14 : jsonPrim sm = true) (h15 : jsonPrim cm = true)
    (h16 : jsonPrim me = true) (h17 : jsonPrim ic = true) :
    restoreState σ (clearPersistedState (some (persistState s))) = (σ, false) ∧
    (restoreState defaultState
      (some (persistState (mkStoreState mo vv cv sm cm ra mz op me it hr ho ic bs sv cp c2)))).2
      = true ∧
    persistState (restoreState defaultState
      (some (persistState (mkStoreState mo vv cv sm cm ra mz op me it hr ho ic bs sv cp c2)))).1
      = persistState (mkStoreState mo vv cv sm cm ra mz op me it hr ho ic bs sv cp c2) := by
  have hiso : isMode mo = true := by simpa [validateState] using h1
  refine ⟨by simp [clearPersistedState, restoreState], ?_, ?_⟩
  · cases mo <;> simp [isMode] at hiso <;>
      simp [persistState, persistedKeys, mkStoreState, getValue, objGet,
        restoreState, restoreEntries, restoreSub,
        h1, h2, h3, h4, h5, h6, h7, h8, h9, h10, h11, h12, h13,
        validateState_sizeMetric, validateState_colorMetric,
        validateState_heatmapMetric, validateState_markersIcon,
        setWalk_present, pathPresent, objHas, writeValue, objSet]
  · cases mo <;> simp [isMode] at hiso <;>
      simp [persistState, persistedKeys, mkStoreState, getValue, objGet,
        restoreState, restoreEntries, restoreSub,
        h1, h2, h3, h4, h5, h6, h7, h8, h9, h10, h11, h12, h13,
        validateState_sizeMetric, validateState_colorMetric,
        validateState_heatmapMetric, validateState_markersIcon,
        setWalk_present, pathPresent, objHas, writeValue, objSet]

theorem persist_restore_roundtrip_witness :
    restoreState defaultState (clearPersistedState (some (persistState defaultState)))
      = (defaultState, false) ∧
    (restoreState defaultState (some (persistState (mkStoreState (vStr "heatmap")
      (vStr "large") (vStr "Shop") (vStr "weight") (vStr "count") (vNum 60) (vNum 10)
      (vNum (mkRat 1 2)) (vStr "weight") (vNum 2) (vNum 30) (vNum (mkRat 1 2)) (vStr "trash-can")
      (vNum 1) (vBool false) (vStr "#112233") (vStr "#aabbcc"))))).2 = true ∧
    persistState (restoreState defaultState (some (persistState (mkStoreState (vStr "heatmap")
      (vStr "large") (vStr "Shop") (vStr "weight") (vStr "count") (vNum 60) (vNum 10)
      (vNum (mkRat 1 2)) (vStr "weight") (vNum 2) (vNum 30) (vNum (mkRat 1 2)) (vStr "trash-can")
      (vNum 1) (vBool false) (vStr "#112233") (vStr "#aabbcc"))))).1
      = persistState (mkStoreState (vStr "heatmap")
      (vStr "large") (vStr "Shop") (vStr "weight") (vStr "count") (vNum 60) (vNum 10)
      (vNum (mkRat 1 2)) (vStr "weight") (vNum 2) (vNum 30) (vNum (mkRat 1 2)) (vStr "trash-can")
      (vNum 1) (vBool false) (vStr "#112233") (vStr "#aabbcc")) :=
  persist_restore_roundtrip defaultState defaultState
    (vStr "heatmap") (vStr "large") (vStr "Shop") (vStr "weight") (vStr "count")
    (vNum 60) (vNum 10) (vNum (mkRat 1 2)) (vStr "weight") (vNum 2) (vNum 30) (vNum (mkRat 1 2))
    (vStr "trash-can") (vNum 1) (vBool false) (vStr "#112233") (vStr "#aabbcc")
    (by decide) (by decide) (by decide) (by decide) (by decide) (by decide)
    (by decide) (by decide) (by decide) (by decide) (by decide) (by decide)
    (by decide) (by decide) (by decide) (by decide) (by decide)

-- ===========================================================================
-- C9: the mode invariant
-- ===========================================================================

/-- The §3 invariant: the stored `mode` is one of the known enum values. -/
def modeValid (σ : Value) : Bool := isMode (getValue σ ["mode"])

/-- A `setState` whose value is mode-checked when the key is exactly `mode`
preserves the invariant (longer `mode.`-rooted paths throw on the string
`mode` before writing; other top segments cannot touch `mode`). -/
theorem setWalk_preserves_modeValid (σ : Value) (p : Path) (v : Value)
    (σ' : Value) (ch : Bool) (hm : modeValid σ = true)
    (hv : p = ["mode"] → isMode v = true)
    (h : setWalk σ p v = some (σ', ch)) : modeValid σ' = true := by
  cases p with
  | nil => simp [setWalk] at h
  | cons k rest =>
      by_cases hk : (k == "mode")
      · have hke := eq_of_beq hk
        subst hke
        cases rest with
        | nil =>
            cases σ with
            | vObj fields =>
                by_cases hpe : primEq (objGet fields "mode") v
                · simp [setWalk, hpe] at h
                  rw [h.1] at hm
                  exact hm
                · simp [setWalk, hpe] at h
                  rw [← h.1]
                  simp [modeValid, getValue, objGet_objSet_self, hv rfl]
            | vNull => simp [setWalk] at h
            | vUndef => simp [setWalk] at h
            | vBool b => simp [setWalk] at h
            | vNum n => simp [setWalk] at h
            | vStr s => simp [setWalk] at h
            | vArr l => simp [setWalk] at h
        | cons q qs =>
            cases σ with
            | vObj fields =>
                have hstr : ∃ m, objGet fields "mode" = vStr m := by
                  simp [modeValid, getValue] at hm
                  cases hg : objGet fields "mode" <;> simp [hg, isMode] at hm ⊢
                obtain ⟨m, hg⟩ := hstr
                simp [setWalk, hg] at h
            | vNull => simp [setWalk] at h
            | vUndef => simp [setWalk] at h
            | vBool b => simp [setWalk] at h
            | vNum n => simp [setWalk] at h
            | vStr s => simp [setWalk] at h
            | vArr l => simp [setWalk] at h
      · have hne : (k == "mode") = false := by simpa using hk
        have := setWalk_frame_head σ k rest v σ' ch "mode" hne h
        simpa [modeValid, getValue] using (this ▸ hm)

theorem restoreSub_preserves_modeValid (k : String) (fields : List (String × Value))
    (σ : Value) (hm : modeValid σ = true) :
    modeValid (restoreSub k σ fields).1 = true := by
  induction fields generalizing σ with
  | nil => simpa [restoreSub] using hm
  | cons f rest ih =>
      obtain ⟨sk, sv⟩ := f
      by_cases hval : validateState [k, sk] sv
      · cases hw : setWalk σ [k, sk] sv with
        | none => simpa [restoreSub, hval, hw] using hm
        | some r =>
            obtain ⟨σ', ch⟩ := r
            have hm' := setWalk_preserves_modeValid σ [k, sk] sv σ' ch hm
              (by intro hcontr; simp at hcontr) hw
            simpa [restoreSub, hval, hw] using ih σ' hm'
      · simp only [restoreSub, if_neg hval]
        exact ih σ hm

theorem restoreEntries_preserves_modeValid (entries : List (String × Value))
    (σ : Value) (hm : modeValid σ = true) :
    modeValid (restoreEntries σ entries).1 = true := by
  induction entries generalizing σ with
  | nil => simpa [restoreEntries] using hm
  | cons e rest ih =>
      obtain ⟨k, v⟩ := e
      have hprim : ∀ (σ2 : Value), validateState [k] v = true →
          (∀ σ' ch, setWalk σ2 [k] v = some (σ', ch) → modeValid σ2 = true →
            modeValid σ' = true) := by
        intro σ2 hval σ' ch hw hm2
        refine setWalk_preserves_modeValid σ2 [k] v σ' ch hm2 ?_ hw
        intro hke
        have : k = "mode" := by simpa using hke
        subst this
        simpa [validateState] using hval
      cases v with
      | vObj f2 =>
          have h1 := restoreSub_preserves_modeValid k f2 σ hm
          by_cases ht : (restoreSub k σ f2).2
          · simpa [restoreEntries, ht] using h1
          · simp only [restoreEntries, ht, if_false, Bool.false_eq_true]
            exact ih _ h1
      | vArr l =>
          have h1 := restoreSub_preserves_modeValid k (indexedEntries l) σ hm
          by_cases ht : (restoreSub k σ (indexedEntries l)).2
          · simpa [restoreEntries, ht] using h1
          · simp only [restoreEntries, ht, if_false, Bool.false_eq_true]
            exact ih _ h1
      | vNull =>
          by_cases hval : validateState [k] vNull
          · cases hw : setWalk σ [k] vNull with
            | none => simpa [restoreEntries, hval, hw] using hm
            | some r =>
                obtain ⟨σ', ch⟩ := r
                simp only [restoreEntries, hval, if_true, hw]
                exact ih σ' (hprim σ hval σ' ch hw hm)
          · simp only [restoreEntries, if_neg hval]
            exact ih σ hm
      | vUndef =>
          by_cases hval : validateState [k] vUndef
          · cases hw : setWalk σ [k] vUndef with
            | none => simpa [restoreEntries, hval, hw] using hm
            | some r =>
                obtain ⟨σ', ch⟩ := r
                simp only [restoreEntries, hval, if_true, hw]
                exact ih σ' (hprim σ hval σ' ch hw hm)
          · simp only [restoreEntries, if_neg hval]
            exact ih σ hm
      | vBool b =>
          by_cases hval : validateState [k] (vBool b)
          · cases hw : setWalk σ [k] (vBool b) with
            | none => simpa [restoreEntries, hval, hw] using hm
            | some r =>
                obtain ⟨σ', ch⟩ := r
                simp only [restoreEntries, hval, if_true, hw]
                exact ih σ' (hprim σ hval σ' ch hw hm)
          · simp only [restoreEntries, if_neg hval]
            exact ih σ hm
      | vNum n =>
          by_cases hval : validateState [k] (vNum n)
          · cases hw : setWalk σ [k] (vNum n) with
            | none => simpa [restoreEntries, hval, hw] using hm
            | some r =>
                obtain ⟨σ', ch⟩ := r
                simp only [restoreEntries, hval, if_true, hw]
                exact ih σ' (hprim σ hval σ' ch hw hm)
          · simp only [restoreEntries, if_neg hval]
            exact ih σ hm
      | vStr s =>
          by_cases hval : validateState [k] (vStr s)
          · cases hw : setWalk σ [k] (vStr s) with
            | none => simpa [restoreEntries, hval, hw] using hm
            | some r =>
                obtain ⟨σ', ch⟩ := r
                simp only [restoreEntries, hval, if_true, hw]
                exact ih σ' (hprim σ hval σ' ch hw hm)
          · simp only [restoreEntries, if_neg hval]
            exact ih σ hm

/-- The `setState` sequence `resetState` performs (src/unnamed/part_004). -/
def resetSets : List (Path × Value) :=
  [(["mode"], vStr "clusters"),
   (["autoSwitchedToCluster"], vBool false),
   (["filters", "volume"], vStr "all"),
   (["filters", "category"], vStr "all"),
   (["cluster", "sizeMetric"], vStr "count"),
   (["cluster", "colorMetric"], vStr "weight"),
   (["cluster", "radius"], vNum 50),
   (["cluster", "maxZoom"], vNum 14),
   (["cluster", "opacity"], vNum (mkRat 8 10)),
   (["heatmap", "metric"], vStr "count"),
   (["heatmap", "intensity"], vNum 1),
   (["heatmap", "radius"], vNum 20),
   (["heatmap", "opacity"], vNum (mkRat 8 10)),
   (["markers", "icon"], vStr "recycling-bin"),
   (["markers", "baseSize"], vNum (mkRat 8 10)),
   (["markers", "scaleByVolume"], vBool true),
   (["colors", "primary"], vStr "#3b82f6"),
   (["colors", "secondary"], vStr "#ef4444")]

/-- Run a list of plain `setState` calls on the state tree; a throw aborts
the remaining calls (the batch wrapper still flushes, which does not affect
the stored state). -/
def applySets : Value → List (Path × Value) → Value
  | σ, [] => σ
  | σ, (k, v) :: rest =>
      match setWalk σ k v with
      | none => σ
      | some (σ', _) => applySets σ' rest

/-- Function `resetState()` at the state level. -/
def resetStateApply (σ : Value) : Value := applySets σ resetSets

theorem applySets_preserves_modeValid (sets : List (Path × Value)) (σ : Value)
    (hm : modeValid σ = true)
    (hsets : ∀ kv ∈ sets, kv.1 = ["mode"] → isMode kv.2 = true) :
    modeValid (applySets σ sets) = true := by
  induction sets generalizing σ with
  | nil => simpa [applySets] using hm
  | cons kv rest ih =>
      obtain ⟨k, v⟩ := kv
      cases hw : setWalk σ k v with
      | none => simpa [applySets, hw] using hm
      | some r =>
          obtain ⟨σ', ch⟩ := r
          simp only [applySets, hw]
          exact ih σ' (setWalk_preserves_modeValid σ k v σ' ch hm
              (hsets (k, v) (by simp)) hw)
            (fun kv2 hkv2 => hsets kv2 (by simp [hkv2]))

/-- Store operations that guard (or fix) the values they write: validated
set, reset to defaults, restore from storage. -/
inductive ValidatedOp where
  | setValidated : Path → Value → ValidatedOp
  | reset : ValidatedOp
  | restore : Option Value → ValidatedOp

def applyValidatedOp (σ : Value) : ValidatedOp → Value
  | ValidatedOp.setValidated k v =>
      match setStateValidated σ k v with
      | none => σ
      | some (σ', _) => σ'
  | ValidatedOp.reset => resetStateApply σ
  | ValidatedOp.restore storage => (restoreState σ storage).1

def runValidatedOps (σ : Value) (ops : List ValidatedOp) : Value :=
  ops.foldl applyValidatedOp σ

/-- C9 (amended): after any sequence of operations in which `mode` is only
written through `setStateValidated`, `resetState` or `restoreState`, the
stored `mode` stays in the known enum — unknown values are rejected or
skipped. The unvalidated writers `setState`/`setMode` (and `setMultiple`,
which uses `setState`) store unknown mode values unchecked: see the
counterexample. -/
theorem mode_invariant_validated_ops (σ : Value) (ops : List ValidatedOp)
    (hm : modeValid σ = true) :
    modeValid (runValidatedOps σ ops) = true := by
  induction ops generalizing σ with
  | nil => simpa [runValidatedOps] using hm
  | cons o rest ih =>
      have hstep : modeValid (applyValidatedOp σ o) = true := by
        cases o with
        | setValidated k v =>
            by_cases hval : validateState k v
            · cases hw : setWalk σ k v with
              | none => simpa [applyValidatedOp, setStateValidated, hval, hw] using hm
              | some r =>
                  obtain ⟨σ', ch⟩ := r
                  have := setWalk_preserves_modeValid σ k v σ' ch hm
                    (by intro hke; subst hke; simpa [validateState] using hval) hw
                  simpa [applyValidatedOp, setStateValidated, hval, hw] using this
            · simpa [applyValidatedOp, setStateValidated, hval] using hm
        | reset =>
            exact applySets_preserves_modeValid resetSets σ hm (by decide)
        | restore storage =>
            cases storage with
            | none => simpa [applyValidatedOp, restoreState] using hm
            | some stored =>
                cases stored with
                | vObj entries =>
                    have h1 := restoreEntries_preserves_modeValid entries σ hm
                    simpa [applyValidatedOp, restoreState, apply_ite Prod.fst] using h1
                | vArr l =>
                    have h1 := restoreEntries_preserves_modeValid (indexedEntries l) σ hm
                    simpa [applyValidatedOp, restoreState, apply_ite Prod.fst] using h1
                | vStr s =>
                    have h1 := restoreEntries_preserves_modeValid
                      ((s.toList.enum).map (fun p => (toString p.1, vStr (String.mk [p.2])))) σ hm
                    simpa [applyValidatedOp, restoreState, apply_ite Prod.fst] using h1
                | vNull => simpa [applyValidatedOp, restoreState] using hm
                | vUndef => simpa [applyValidatedOp, restoreState] using hm
                | vBool b => simpa [applyValidatedOp, restoreState] using hm
                | vNum n => simpa [applyValidatedOp, restoreState] using hm
      simpa [runValidatedOps] using ih (applyValidatedOp σ o) hstep

theorem mode_invariant_validated_ops_witness :
    modeValid (runValidatedOps defaultState
      [ValidatedOp.setValidated ["mode"] (vStr "bogus"),
       ValidatedOp.reset,
       ValidatedOp.setValidated ["mode"] (vStr "heatmap"),
       ValidatedOp.restore none]) = true :=
  mode_invariant_validated_ops defaultState _ (by decide)

/-- The state after a raw `setState` (the `fallback` is unreachable for the
concrete input below). -/
def stateAfterSet (r : Option (Value × Bool)) (fallback : Value) : Value :=
  (r.map Prod.fst).getD fallback

/-- C9 counterexample: the permissive `setState('mode', 'bogus')` (and
likewise `setMode`, which performs the same unvalidated write) stores the
unknown value instead of rejecting, clamping or ignoring it. -/
theorem setState_stores_unknown_mode :
    getValue (stateAfterSet (setWalk defaultState ["mode"] (vStr "bogus")) defaultState)
      ["mode"] = vStr "bogus"
    ∧ isMode (vStr "bogus") = false := ⟨rfl, rfl⟩

-- ===========================================================================
-- Selector engine data (src/unnamed/part_003) and C3 / C7
-- ===========================================================================

/-- A generated location point (src/unnamed/part_004 `LocationData`). -/
structure LocationPoint where
  id : Int
  lng : Rat
  lat : Rat
  value : Rat
  category : String
  metro : String
  recyclingVolume : Int
  deriving Repr, DecidableEq

structure FilterSettings where
  volume : String
  category : String
  deriving Repr, DecidableEq

/-- The filter callback of `getFilteredData` (src/unnamed/part_003):
volume buckets by `<= 3`, `> 3 && <= 6`, `> 6`, then category equality. -/
def pointPasses (filters : FilterSettings) (point : LocationPoint) : Bool :=
  (if filters.volume != "all" then
     (filters.volume == "small" && decide (point.recyclingVolume ≤ 3)) ||
     (filters.volume == "medium" && decide (point.recyclingVolume > 3) &&
       decide (point.recyclingVolume ≤ 6)) ||
     (filters.volume == "large" && decide (point.recyclingVolume > 6))
   else true) &&
  (if filters.category != "all" then point.category == filters.category else true)

/-- The compute function of the `getFilteredData` selector. -/
def getFilteredDataCompute (rawData : List LocationPoint)
    (filters : FilterSettings) : List LocationPoint :=
  rawData.filter (pointPasses filters)

/-- Table `VOLUME_RANGES` from src/src/config/regions.js (labels omitted). -/
def VOLUME_RANGES (key : String) : Option (Int × Int) :=
  if key = "all" then some (1, 10)
  else if key = "small" then some (1, 3)
  else if key = "medium" then some (4, 6)
  else if key = "large" then some (7, 10)
  else none

/-- The claim's reading of `filteredData()`: the subsequence of `rawData`
whose category matches (or all) and whose `recyclingVolume` lies in the
active volume bucket's inclusive `VOLUME_RANGES` range, `all` unrestricted. -/
def filteredDataSpec (rawData : List LocationPoint)
    (filters : FilterSettings) : List LocationPoint :=
  rawData.filter (fun p =>
    (if filters.volume = "all" then true
     else match VOLUME_RANGES filters.volume with
       | some r => decide (r.1 ≤ p.recyclingVolume ∧ p.recyclingVolume ≤ r.2)
       | none => false) &&
    ((filters.category == "all") || (p.category == filters.category)))

/-- C3: for volumes in the generator's documented `[1,10]` integer range and
any of the four volume filter settings, `filteredData()` returns exactly the
order-preserving subsequence selected by the inclusive `VOLUME_RANGES`
buckets and the category filter. -/
theorem getFilteredData_matches_volume_ranges (rawData : List LocationPoint)
    (filters : FilterSettings)
    (hvol : filters.volume ∈ (["all", "small", "medium", "large"] : List String))
    (hdata : ∀ p ∈ rawData, 1 ≤ p.recyclingVolume ∧ p.recyclingVolume ≤ 10) :
    getFilteredDataCompute rawData filters = filteredDataSpec rawData filters := by
  obtain ⟨fv, fc⟩ := filters
  unfold getFilteredDataCompute filteredDataSpec
  apply List.filter_congr
  intro p hp
  obtain ⟨hlo, hhi⟩ := hdata p hp
  obtain ⟨pid, plng, plat, pval, pcat, pmetro, pv⟩ := p
  simp only at hlo hhi
  simp only [List.mem_cons, List.mem_singleton] at hvol
  rcases hvol with h | h | h | h | h
  · subst h
    by_cases hc : fc = "all" <;> simp [pointPasses, VOLUME_RANGES, hc]
  · subst h
    interval_cases pv <;> by_cases hc : fc = "all" <;>
      simp [pointPasses, VOLUME_RANGES, hc]
  · subst h
    interval_cases pv <;> by_cases hc : fc = "all" <;>
      simp [pointPasses, VOLUME_RANGES, hc]
  · subst h
    interval_cases pv <;> by_cases hc : fc = "all" <;>
      simp [pointPasses, VOLUME_RANGES, hc]
  · simp at h

theorem getFilteredData_matches_volume_ranges_witness :
    getFilteredDataCompute
      [⟨1, -95, 29, 50, "Shop", "Houston", 2⟩,
       ⟨2, -96, 32, 60, "Park", "Dallas-Fort Worth", 7⟩,
       ⟨3, -97, 30, 70, "Shop", "Austin", 10⟩]
      ⟨"large", "all"⟩ =
    filteredDataSpec
      [⟨1, -95, 29, 50, "Shop", "Houston", 2⟩,
       ⟨2, -96, 32, 60, "Park", "Dallas-Fort Worth", 7⟩,
       ⟨3, -97, 30, 70, "Shop", "Austin", 10⟩]
      ⟨"large", "all"⟩ :=
  getFilteredData_matches_volume_ranges _ _ (by decide) (by decide)

-- C7 -----------------------------------------------------------------------

-- LAYER_IDS from src/src/config/constants.js.
namespace LAYER_IDS

def CLUSTERS : String := "clusters"

def CLUSTERS_GLOW : String := "clusters-glow"

def CLUSTER_COUNT : String := "cluster-count"

def UNCLUSTERED : String := "unclustered-point"

def UNCLUSTERED_GLOW : String := "unclustered-point-glow"

def HEATMAP : String := "heatmap"

def MARKERS : String := "markers"

def MARKERS_LABELS : String := "markers-labels"

end LAYER_IDS

/-- The compute function of the `getActiveLayerIds` selector
(src/unnamed/part_003): switch on the mode. -/
def getActiveLayerIdsCompute (mode : String) : List String :=
  if mode = "clusters" then
    [LAYER_IDS.CLUSTERS, LAYER_IDS.CLUSTERS_GLOW, LAYER_IDS.CLUSTER_COUNT,
     LAYER_IDS.UNCLUSTERED, LAYER_IDS.UNCLUSTERED_GLOW]
  else if mode = "heatmap" then [LAYER_IDS.HEATMAP]
  else if mode = "markers" then [LAYER_IDS.MARKERS, LAYER_IDS.MARKERS_LABELS]
  else []

/-- The order the claim documents for the five cluster layers:
glow, main, count-label, unclustered-glow, unclustered-point. -/
def documentedClusterOrder : List String :=
  [LAYER_IDS.CLUSTERS_GLOW, LAYER_IDS.CLUSTERS, LAYER_IDS.CLUSTER_COUNT,
   LAYER_IDS.UNCLUSTERED_GLOW, LAYER_IDS.UNCLUSTERED]

/-- C7 counterexample: for the clustered encoding, `activeLayerIds()` does
not return the documented order (it lists main before glow, and
unclustered-point before its glow). -/
theorem activeLayerIds_cluster_order_not_documented :
    getActiveLayerIdsCompute "clusters" ≠ documentedClusterOrder := by decide

/-- C7 (amended): `activeLayerIds()` returns a fixed list per mode — the five
cluster ids as a set match the documented five but in the stable order
main, glow, count-label, unclustered-point, unclustered-glow; exactly one id
for heatmap; and exactly two for markers, icon layer then label layer. -/
theorem activeLayerIds_per_mode :
    getActiveLayerIdsCompute "clusters" =
      ["clusters", "clusters-glow", "cluster-count", "unclustered-point",
       "unclustered-point-glow"] ∧
    (getActiveLayerIdsCompute "clusters").Perm documentedClusterOrder ∧
    getActiveLayerIdsCompute "heatmap" = ["heatmap"] ∧
    getActiveLayerIdsCompute "markers" = ["markers", "markers-labels"] := by
  refine ⟨by decide, ?_, by decide, by decide⟩
  decide

-- ===========================================================================
-- C4: createSelector memoization (src/unnamed/part_003)
-- ===========================================================================

/-- A dependency value as compared by the memoizer's `===`: a primitive
string, or an object/array reference identified by its allocation number
(distinct allocations are never `===`). -/
inductive DepVal where
  | str : String → DepVal
  | ref : Nat → DepVal
  deriving Repr, DecidableEq

/-- JS `cachedDeps.length === currentDeps.length &&
cachedDeps.every((dep, i) => dep === currentDeps[i])`. -/
def depsEqual (a b : List DepVal) : Bool :=
  a.length == b.length && (a.zip b).all (fun p => p.1 == p.2)

theorem depsEqual_refl (a : List DepVal) : depsEqual a a = true := by
  induction a with
  | nil => rfl
  | cons x xs ih =>
      simp only [depsEqual, List.length_cons, List.zip_cons_cons, List.all_cons,
        beq_self_eq_true, Bool.true_and] at ih ⊢
      exact ih

theorem depsEqual_eq {a b : List DepVal} (h : depsEqual a b = true) : a = b := by
  induction a generalizing b with
  | nil => cases b <;> simp_all [depsEqual]
  | cons x xs ih =>
      cases b with
      | nil => simp [depsEqual] at h
      | cons y ys =>
          simp only [depsEqual, List.length_cons, List.zip_cons_cons, List.all_cons,
            Bool.and_eq_true, beq_iff_eq, Nat.add_right_cancel_iff] at h
          obtain ⟨hl, hxy, hall⟩ := h
          have := ih (b := ys) (by simp [depsEqual, hl, hall])
          simp [hxy, this]

/-- One invocation of a selector built by `createSelector(fn, dependencyFn)`
(src/unnamed/part_003). The cache holds the previous `(deps, result)` pair;
the dependency function threads an allocation counter so that getters
returning fresh objects (`{ ...state.cluster }`) yield a fresh reference on
every call. Returns (result, new cache, new counter, whether `fn` ran). -/
def selectorInvoke {σv α : Type} (fn : σv → α)
    (dependencyFn : σv → Nat → List DepVal × Nat)
    (cache : Option (List DepVal × α)) (s : σv) (ctr : Nat) :
    α × Option (List DepVal × α) × Nat × Bool :=
  let d := dependencyFn s ctr
  match cache with
  | some (cachedDeps, cachedResult) =>
      if depsEqual cachedDeps d.1 then
        (cachedResult, some (cachedDeps, cachedResult), d.2, false)
      else (fn s, some (d.1, fn s), d.2, true)
  | none => (fn s, some (d.1, fn s), d.2, true)

/-- C4 (amended): for every selector whose dependency function is stable —
it returns the same dependency list for the same store state and allocates
no fresh references (the case for `filteredData()`, `filteredCount()`,
`dataStats()`, `hasActiveFilters()`, whose deps are the `rawData` reference
and primitive filter strings) — two consecutive invocations with no
intervening store mutation return the identical cached result with the
compute function invoked only once, and an invocation after a dependency
change recomputes. `currentLayerConfig()` is not of this form: see the
counterexample. -/
theorem selector_memoization_stable_deps {σv α : Type} (fn : σv → α)
    (deps : σv → List DepVal) (s s2 : σv) (c : Nat)
    (hchange : deps s2 ≠ deps s) :
    (selectorInvoke fn (fun st n => (deps st, n)) none s c).2.2.2 = true ∧
    (selectorInvoke fn (fun st n => (deps st, n))
        (selectorInvoke fn (fun st n => (deps st, n)) none s c).2.1 s c).1 = fn s ∧
    (selectorInvoke fn (fun st n => (deps st, n))
        (selectorInvoke fn (fun st n => (deps st, n)) none s c).2.1 s c).2.2.2 = false ∧
    (selectorInvoke fn (fun st n => (deps st, n))
        (selectorInvoke fn (fun st n => (deps st, n)) none s c).2.1 s2 c).2.2.2 = true ∧
    (selectorInvoke fn (fun st n => (deps st, n))
        (selectorInvoke fn (fun st n => (deps st, n)) none s c).2.1 s2 c).1 = fn s2 := by
  have hne : depsEqual (deps s) (deps s2) = false := by
    cases hde : depsEqual (deps s) (deps s2) with
    | false => rfl
    | true => exact absurd (depsEqual_eq hde).symm hchange
  refine ⟨rfl, ?_, ?_, ?_, ?_⟩ <;>
    simp [selectorInvoke, depsEqual_refl, hne]

/-- Compute and dependency functions of `hasActiveFilters`
(src/unnamed/part_003): deps are the two primitive filter strings. -/
def hasActiveFiltersCompute (filters : FilterSettings) : Bool :=
  filters.volume != "all" || filters.category != "all"

def hasActiveFiltersDeps (filters : FilterSettings) : List DepVal :=
  [DepVal.str filters.volume, DepVal.str filters.category]

theorem selector_memoization_stable_deps_witness :
    (selectorInvoke hasActiveFiltersCompute (fun st n => (hasActiveFiltersDeps st, n))
      none (⟨"all", "all"⟩ : FilterSettings) 0).2.2.2 = true ∧
    (selectorInvoke hasActiveFiltersCompute (fun st n => (hasActiveFiltersDeps st, n))
        (selectorInvoke hasActiveFiltersCompute (fun st n => (hasActiveFiltersDeps st, n))
          none (⟨"all", "all"⟩ : FilterSettings) 0).2.1 ⟨"all", "all"⟩ 0).1 =
      hasActiveFiltersCompute ⟨"all", "all"⟩ ∧
    (selectorInvoke hasActiveFiltersCompute (fun st n => (hasActiveFiltersDeps st, n))
        (selectorInvoke hasActiveFiltersCompute (fun st n => (hasActiveFiltersDeps st, n))
          none (⟨"all", "all"⟩ : FilterSettings) 0).2.1 ⟨"all", "all"⟩ 0).2.2.2 = false ∧
    (selectorInvoke hasActiveFiltersCompute (fun st n => (hasActiveFiltersDeps st, n))
        (selectorInvoke hasActiveFiltersCompute (fun st n => (hasActiveFiltersDeps st, n))
          none (⟨"all", "all"⟩ : FilterSettings) 0).2.1 ⟨"large", "all"⟩ 0).2.2.2 = true ∧
    (selectorInvoke hasActiveFiltersCompute (fun st n => (hasActiveFiltersDeps st, n))
        (selectorInvoke hasActiveFiltersCompute (fun st n => (hasActiveFiltersDeps st, n))
          none (⟨"all", "all"⟩ : FilterSettings) 0).2.1 ⟨"large", "all"⟩ 0).1 =
      hasActiveFiltersCompute ⟨"large", "all"⟩ :=
  selector_memoization_stable_deps hasActiveFiltersCompute hasActiveFiltersDeps
    ⟨"all", "all"⟩ ⟨"large", "all"⟩ 0 (by decide)

/-- Projection of the stored mode string (the mode is a string in every
state the modelled flows reach). -/
def getModeStr (σ : Value) : String :=
  match getValue σ ["mode"] with
  | vStr s => s
  | _ => ""

/-- Dependency function of `getCurrentLayerConfig` (src/unnamed/part_003):
`[getMode(), getClusterSettings(), getHeatmapSettings(),
getMarkerSettings(), getColors()]`. The four settings getters return fresh
shallow copies (`{ ...state.cluster }`), so every call allocates four fresh
references. -/
def currentLayerConfigDeps (σ : Value) (ctr : Nat) : List DepVal × Nat :=
  ([DepVal.str (getModeStr σ), DepVal.ref ctr, DepVal.ref (ctr + 1),
    DepVal.ref (ctr + 2), DepVal.ref (ctr + 3)], ctr + 4)

def fieldsOf (v : Value) : List (String × Value) :=
  match v with
  | vObj fields => fields
  | _ => []

/-- Compute function of `getCurrentLayerConfig`: merge `{ mode, ...settings,
primary, secondary }` for the active mode. -/
def getCurrentLayerConfigCompute (σ : Value) : Value :=
  let mode := getValue σ ["mode"]
  let colors := getValue σ ["colors"]
  let merged := fun (settings : Value) =>
    vObj ([("mode", mode)] ++ fieldsOf settings ++
      [("primary", getValue colors ["primary"]),
       ("secondary", getValue colors ["secondary"])])
  if primEq mode (vStr "clusters") then merged (getValue σ ["cluster"])
  else if primEq mode (vStr "heatmap") then merged (getValue σ ["heatmap"])
  else if primEq mode (vStr "markers") then merged (getValue σ ["markers"])
  else vObj [("mode", mode)]

/-- C4 counterexample: two consecutive invocations of `currentLayerConfig()`
with no intervening store mutation both invoke the compute function — the
dependency list holds four freshly-allocated object references per call,
which are never `===` the previous call's, so the cache never hits. -/
theorem currentLayerConfig_recomputes_every_call :
    (selectorInvoke getCurrentLayerConfigCompute currentLayerConfigDeps
      none defaultState 0).2.2.2 = true ∧
    (selectorInvoke getCurrentLayerConfigCompute currentLayerConfigDeps
      (selectorInvoke getCurrentLayerConfigCompute currentLayerConfigDeps
        none defaultState 0).2.1
      defaultState
      (selectorInvoke getCurrentLayerConfigCompute currentLayerConfigDeps
        none defaultState 0).2.2.1).2.2.2 = true := ⟨rfl, rfl⟩

-- ===========================================================================
-- Layer pipeline (src/src/layers/index.js) and C5 / C6
-- ===========================================================================

/-- Calls issued to the rendering engine. -/
inductive EngineCall where
  | addLayerCall : String → EngineCall
  | removeLayerCall : String → EngineCall
  | addSourceCall : String → EngineCall
  | removeSourceCall : String → EngineCall
  deriving Repr, DecidableEq

/-- The rendering engine as the pipeline sees it: style readiness, the layer
and source id sets, and the trace of mutating calls issued to it. -/
structure MapEngine where
  styleLoaded : Bool
  layers : List String
  sources : List String
  callLog : List EngineCall
  deriving Repr, DecidableEq

def hasLayer (m : MapEngine) (id : String) : Bool := m.layers.contains id

def hasSource (m : MapEngine) (id : String) : Bool := m.sources.contains id

def removeLayerE (m : MapEngine) (id : String) : MapEngine :=
  { m with layers := m.layers.erase id,
           callLog := m.callLog ++ [EngineCall.removeLayerCall id] }

def addLayerE (m : MapEngine) (id : String) : MapEngine :=
  { m with layers := m.layers ++ [id],
           callLog := m.callLog ++ [EngineCall.addLayerCall id] }

def removeSourceE (m : MapEngine) (id : String) : MapEngine :=
  { m with sources := m.sources.erase id,
           callLog := m.callLog ++ [EngineCall.removeSourceCall id] }

def addSourceE (m : MapEngine) (id : String) : MapEngine :=
  { m with sources := m.sources ++ [id],
           callLog := m.callLog ++ [EngineCall.addSourceCall id] }

/-- `ALL_LAYER_IDS` from src/src/layers/index.js. -/
def ALL_LAYER_IDS : List String :=
  [LAYER_IDS.CLUSTERS, LAYER_IDS.CLUSTERS_GLOW, LAYER_IDS.CLUSTER_COUNT,
   LAYER_IDS.UNCLUSTERED, LAYER_IDS.UNCLUSTERED_GLOW, LAYER_IDS.HEATMAP,
   LAYER_IDS.MARKERS, LAYER_IDS.MARKERS_LABELS]

/-- `removeAllLayers(map)`: remove each present layer, then the points
source if present (layers before source). -/
def removeAllLayersE (m : MapEngine) : MapEngine :=
  let m1 := ALL_LAYER_IDS.foldl
    (fun acc id => if hasLayer acc id then removeLayerE acc id else acc) m
  if hasSource m1 "points" then removeSourceE m1 "points" else m1

-- Layer factories (src/src/layers/clusters.js, heatmap.js, markers.js):
-- modelled by the layer ids they return, in return order; paint properties
-- are outside the claims' scope.

def createClusterLayers : List String :=
  [LAYER_IDS.CLUSTERS_GLOW, LAYER_IDS.CLUSTERS, LAYER_IDS.CLUSTER_COUNT,
   LAYER_IDS.UNCLUSTERED_GLOW, LAYER_IDS.UNCLUSTERED]

def createHeatmapLayers : List String := [LAYER_IDS.HEATMAP]

def createMarkerLayers : List String := [LAYER_IDS.MARKERS, LAYER_IDS.MARKERS_LABELS]

/-- `createLayersForMode(mode)`: dispatch on the mode; unknown modes warn
and produce no layers. -/
def createLayersForMode (mode : String) : List String :=
  if mode = "clusters" then createClusterLayers
  else if mode = "heatmap" then createHeatmapLayers
  else if mode = "markers" then createMarkerLayers
  else []

/-- `addLayers(map)`: add each layer of the active mode in factory order. -/
def addLayersE (m : MapEngine) (mode : String) : MapEngine :=
  (createLayersForMode mode).foldl addLayerE m

/-- A GeoJSON point feature as `getFilteredGeoJSON` builds it. -/
structure GeoFeature where
  lng : Rat
  lat : Rat
  fid : Int
  fvalue : Rat
  fcategory : String
  fmetro : String
  fvolume : Int
  fweight : Rat
  deriving Repr, DecidableEq

/-- Compute function of the `getFilteredGeoJSON` selector
(src/unnamed/part_003): `null` (here `none`) when the filtered data is
empty, otherwise the feature collection. -/
def getFilteredGeoJSONCompute (rawData : List LocationPoint)
    (filters : FilterSettings) : Option (List GeoFeature) :=
  let filteredData := getFilteredDataCompute rawData filters
  if filteredData.isEmpty then none
  else some (filteredData.map (fun p =>
    ⟨p.lng, p.lat, p.id, p.value, p.category, p.metro, p.recyclingVolume,
     (p.recyclingVolume : Rat) / 10⟩))

/-- The slice of store state `rebuildForMode` reads. -/
structure StoreView where
  mode : String
  rawData : List LocationPoint
  filters : FilterSettings
  deriving Repr, DecidableEq

/-- `rebuildForMode(map)` (src/src/layers/index.js): skip (count 0) unless
the map exists with a loaded style and the filtered collection is non-empty;
otherwise remove everything, add the source (the clustering options it
carries are outside the claims' scope), add the mode's layers, and return
the filtered feature count. -/
def rebuildForMode (s : StoreView) (map : Option MapEngine) : Int × Option MapEngine :=
  match map with
  | none => (0, none)
  | some m =>
      if !m.styleLoaded then (0, some m)
      else
        match getFilteredGeoJSONCompute s.rawData s.filters with
        | none => (0, some m)
        | some feats =>
            let m1 := removeAllLayersE m
            let m2 := addSourceE m1 "points"
            let m3 := addLayersE m2 s.mode
            ((feats.length : Int), some m3)

/-- C6: for every store state, `rebuildForMode()` invoked while the style is
not loaded returns 0, leaves the rendering engine untouched (zero
add/remove-layer and add/remove-source calls — the call log is unchanged),
and does not throw (it is a total function on the modelled inputs). -/
theorem rebuild_style_not_loaded_noop (s : StoreView) (m : MapEngine)
    (h : m.styleLoaded = false) :
    rebuildForMode s (some m) = (0, some m) := by
  simp [rebuildForMode, h]

theorem rebuild_style_not_loaded_noop_witness :
    rebuildForMode
      ⟨"clusters", [⟨1, -95, 29, 50, "Shop", "Houston", 5⟩], ⟨"all", "all"⟩⟩
      (some ⟨false, ["heatmap"], ["points"], []⟩) =
      (0, some ⟨false, ["heatmap"], ["points"], []⟩) :=
  rebuild_style_not_loaded_noop _ _ rfl

/-- C5 (amended): a rebuild with the style loaded but zero filtered features
is skipped entirely — it returns 0 and leaves the rendering engine exactly
as it was (previous layers and source still present), rather than removing
the layers and source. -/
theorem rebuild_empty_filter_noop (s : StoreView) (m : MapEngine)
    (hs : m.styleLoaded = true)
    (he : getFilteredDataCompute s.rawData s.filters = []) :
    rebuildForMode s (some m) = (0, some m) := by
  simp [rebuildForMode, hs, getFilteredGeoJSONCompute, he]

theorem rebuild_empty_filter_noop_witness :
    rebuildForMode
      ⟨"clusters", [⟨1, -95, 29, 50, "Shop", "Houston", 5⟩], ⟨"large", "all"⟩⟩
      (some ⟨true, createClusterLayers, ["points"], []⟩) =
      (0, some ⟨true, createClusterLayers, ["points"], []⟩) :=
  rebuild_empty_filter_noop _ _ rfl (by decide)

/-- C5 counterexample: rendering engine ready (style loaded) and showing the
five cluster layers plus the points source; the volume filter excludes the
single data point, so the filtered collection is empty — `rebuildForMode`
returns 0 and issues no calls, leaving every previous layer and the source
on the map instead of removing them. -/
theorem rebuild_empty_filter_leaves_layers :
    rebuildForMode
      ⟨"clusters", [⟨1, -95, 29, 50, "Shop", "Houston", 5⟩], ⟨"large", "all"⟩⟩
      (some ⟨true, createClusterLayers, ["points"], []⟩) =
      (0, some ⟨true, createClusterLayers, ["points"], []⟩) ∧
    createClusterLayers ≠ [] ∧
    (⟨true, createClusterLayers, ["points"], []⟩ : MapEngine).callLog = [] := by
  refine ⟨by decide, by decide, rfl⟩

-- ===========================================================================
-- C10: compound read accessors return fresh shallow copies
-- ===========================================================================

/-- A heap of JS objects: an object is its field list, its address its index
(allocation order). Object identity — what `{ ...state.filters }` creates
fresh — is the address. -/
structure JsHeap where
  objs : List (List (String × Value))
  deriving Repr

def readObj (h : JsHeap) (a : Nat) : List (String × Value) := h.objs.getD a []

/-- Allocation: a fresh address at the end of the heap. -/
def allocObj (h : JsHeap) (o : List (String × Value)) : Nat × JsHeap :=
  (h.objs.length, ⟨h.objs ++ [o]⟩)

/-- In-place mutation of one field of the object at an address. -/
def writeField (h : JsHeap) (a : Nat) (k : String) (v : Value) : JsHeap :=
  ⟨h.objs.set a (objSet (h.objs.getD a []) k v)⟩

/-- The store's compound state objects (`state.filters`, `state.cluster`,
`state.heatmap`, `state.markers`, `state.colors`) live in the heap at fixed
addresses; `fired` is the notification trace. -/
structure StoreH where
  filtersA : Nat
  clusterA : Nat
  heatmapA : Nat
  markersA : Nat
  colorsA : Nat
  heap : JsHeap
  fired : List (Path × Value)
  deriving Repr

/-- A spread `{ ...obj }`: allocate a fresh object holding a shallow copy of
the fields. No notification is issued. -/
def spreadCopy (s : StoreH) (a : Nat) : Nat × StoreH :=
  let r := allocObj s.heap (readObj s.heap a)
  (r.1, { s with heap := r.2 })

-- The five compound read accessors (src/unnamed/part_004): each returns
-- `{ ...state.X }` and notifies nobody.

def getFiltersH (s : StoreH) : Nat × StoreH := spreadCopy s s.filtersA

def getClusterSettingsH (s : StoreH) : Nat × StoreH := spreadCopy s s.clusterA

def getHeatmapSettingsH (s : StoreH) : Nat × StoreH := spreadCopy s s.heatmapA

def getMarkerSettingsH (s : StoreH) : Nat × StoreH := spreadCopy s s.markersA

def getColorsH (s : StoreH) : Nat × StoreH := spreadCopy s s.colorsA

inductive CompoundKey where
  | filters | cluster | heatmap | markers | colors
  deriving Repr, DecidableEq

def keyAddr (s : StoreH) : CompoundKey → Nat
  | CompoundKey.filters => s.filtersA
  | CompoundKey.cluster => s.clusterA
  | CompoundKey.heatmap => s.heatmapA
  | CompoundKey.markers => s.markersA
  | CompoundKey.colors => s.colorsA

def runAccessor (ck : CompoundKey) (s : StoreH) : Nat × StoreH :=
  match ck with
  | CompoundKey.filters => getFiltersH s
  | CompoundKey.cluster => getClusterSettingsH s
  | CompoundKey.heatmap => getHeatmapSettingsH s
  | CompoundKey.markers => getMarkerSettingsH s
  | CompoundKey.colors => getColorsH s

/-- Caller-side mutation of a returned object. -/
def mutateObj (s : StoreH) (a : Nat) (k : String) (v : Value) : StoreH :=
  { s with heap := writeField s.heap a k v }

theorem getD_concat_self {α : Type} (l : List α) (x d : α) :
    (l ++ [x]).getD l.length d = x := by
  induction l with
  | nil => rfl
  | cons y ys ih => simpa using ih

theorem getD_append_left {α : Type} (l1 l2 : List α) (j : Nat) (d : α)
    (h : j < l1.length) : (l1 ++ l2).getD j d = l1.getD j d := by
  induction l1 generalizing j with
  | nil => simp at h
  | cons y ys ih =>
      cases j with
      | zero => rfl
      | succ j2 => simpa using ih j2 (by simpa using h)

theorem getD_set_ne {α : Type} (l : List α) (i j : Nat) (x d : α) (h : i ≠ j) :
    (l.set i x).getD j d = l.getD j d := by
  induction l generalizing i j with
  | nil => rfl
  | cons y ys ih =>
      cases i with
      | zero =>
          cases j with
          | zero => exact absurd rfl h
          | succ j2 => simp [List.set]
      | succ i2 =>
          cases j with
          | zero => simp [List.set]
          | succ j2 =>
              simpa [List.set] using ih i2 j2 (fun he => h (by rw [he]))

/-- C10: every compound read accessor (`getFilters`, `getClusterSettings`,
`getHeatmapSettings`, `getMarkerSettings`, `getColors`) returns a fresh
shallow copy of its state object: the returned reference is distinct from
the store's, reads back the same fields, and mutating it changes neither the
store's object nor fires any notification. -/
theorem compound_accessors_return_copies (s : StoreH) (ck : CompoundKey)
    (k : String) (v : Value) (hv : keyAddr s ck < s.heap.objs.length) :
    (runAccessor ck s).1 ≠ keyAddr s ck ∧
    readObj (runAccessor ck s).2.heap (runAccessor ck s).1 =
      readObj s.heap (keyAddr s ck) ∧
    readObj (mutateObj (runAccessor ck s).2 (runAccessor ck s).1 k v).heap
      (keyAddr s ck) = readObj s.heap (keyAddr s ck) ∧
    (mutateObj (runAccessor ck s).2 (runAccessor ck s).1 k v).fired = s.fired := by
  have hacc : runAccessor ck s = spreadCopy s (keyAddr s ck) := by
    cases ck <;> rfl
  rw [hacc]
  refine ⟨fun he => absurd he.symm (Nat.ne_of_lt hv), ?_, ?_, rfl⟩
  · exact getD_concat_self s.heap.objs (readObj s.heap (keyAddr s ck)) []
  · show (((s.heap.objs ++ [readObj s.heap (keyAddr s ck)]).set s.heap.objs.length
        _).getD (keyAddr s ck) []) = s.heap.objs.getD (keyAddr s ck) []
    rw [getD_set_ne _ _ _ _ _ (Nat.ne_of_gt hv)]
    exact getD_append_left s.heap.objs _ _ _ hv

/-- A concrete store heap mirroring the default compound state objects. -/
def demoStoreH : StoreH :=
  ⟨0, 1, 2, 3, 4,
   ⟨[[("volume", vStr "all"), ("category", vStr "all")],
     [("sizeMetric", vStr "count"), ("colorMetric", vStr "weight"),
      ("radius", vNum 50), ("maxZoom", vNum 14), ("opacity", vNum (mkRat 8 10))],
     [("metric", vStr "count"), ("intensity", vNum 1),
      ("radius", vNum 20), ("opacity", vNum (mkRat 8 10))],
     [("icon", vStr "recycling-bin"), ("baseSize", vNum (mkRat 8 10)),
      ("scaleByVolume", vBool true)],
     [("primary", vStr "#3b82f6"), ("secondary", vStr "#ef4444")]]⟩,
   []⟩

theorem compound_accessors_return_copies_witness :
    (runAccessor CompoundKey.colors demoStoreH).1 ≠ keyAddr demoStoreH CompoundKey.colors ∧
    readObj (runAccessor CompoundKey.colors demoStoreH).2.heap
      (runAccessor CompoundKey.colors demoStoreH).1 =
      readObj demoStoreH.heap (keyAddr demoStoreH CompoundKey.colors) ∧
    readObj (mutateObj (runAccessor CompoundKey.colors demoStoreH).2
        (runAccessor CompoundKey.colors demoStoreH).1 "primary" (vStr "#000000")).heap
      (keyAddr demoStoreH CompoundKey.colors) =
      readObj demoStoreH.heap (keyAddr demoStoreH CompoundKey.colors) ∧
    (mutateObj (runAccessor CompoundKey.colors demoStoreH).2
        (runAccessor CompoundKey.colors demoStoreH).1 "primary" (vStr "#000000")).fired =
      demoStoreH.fired :=
  compound_accessors_return_copies demoStoreH CompoundKey.colors "primary"
    (vStr "#000000") (by decide)

end MappingProto
